import Mathlib

/-!
Verification development for `src/master.py` of the clinvar repository.

The file shallowly embeds the orchestration script `master.py`:
Python exceptions become an explicit `PyExc` error type, the `%`-style
string formatting used in the argument-validation block is embedded with
its error cases, the FTP `MDTM` freshness check and `download_if_changed`
become pure functions over an explicit FTP/filesystem environment, and the
sequential `pypez` job list built by the script becomes a list of resolved
command strings.  The `pypez` library itself is not part of the repository;
where its behaviour matters (job queue, parallel join, sequential run) it
is modelled from the specification and marked as such.
-/

namespace Clinvar

/-- Python exceptions that `master.py` can raise, as an explicit error type.
`parserError` stands for `argparse`'s `p.error(...)` (print message, exit 2);
the others are ordinary interpreter exceptions. -/
inductive PyExc where
  | parserError (msg : String)
  | typeError (msg : String)
  | valueError (msg : String)
  | networkError (msg : String)
  | processError (msg : String)
  deriving DecidableEq

/-- A Python value appearing as the right operand of `%` formatting in
`master.py` (always a single string or integer there). -/
inductive PyVal where
  | str (s : String)
  | int (n : Int)
  deriving DecidableEq

def pyStrOf : PyVal → String
  | .str s => s
  | .int n => toString n

/-- Embeds CPython `%` formatting with a single (non-tuple) argument, for the
directives reachable from `master.py`'s format strings: `%s`, `%d`, `%%`,
and any other character after `%` (an "unsupported format character"
`ValueError`, e.g. the `%` directly followed by a brace in the tabix-index
message).  `%d` applied to a `str` raises `TypeError`, as in CPython.
The boolean tracks whether the single argument has been consumed. -/
def pyFormatGo : List Char → PyVal → Bool → Except PyExc (List Char)
  | [], _, consumed =>
      if consumed then .ok []
      else .error (.typeError "not all arguments converted during string formatting")
  | ['%'], _, _ => .error (.valueError "incomplete format")
  | '%' :: c :: rest, v, consumed =>
      if c = '%' then (pyFormatGo rest v consumed).map (fun t => '%' :: t)
      else if c = 's' then
        if consumed then .error (.typeError "not enough arguments for format string")
        else (pyFormatGo rest v true).map (fun t => (pyStrOf v).data ++ t)
      else if c = 'd' then
        if consumed then .error (.typeError "not enough arguments for format string")
        else match v with
          | .int n => (pyFormatGo rest v true).map (fun t => (toString n).data ++ t)
          | .str _ => .error (.typeError "%d format: a number is required, not str")
      else .error (.valueError "unsupported format character")
  | c :: rest, v, consumed => (pyFormatGo rest v consumed).map (fun t => c :: t)

/-- `fmt % v` in Python, for a single non-tuple argument `v`. -/
def pyFormat1 (fmt : String) (v : PyVal) : Except PyExc String :=
  (pyFormatGo fmt.data v false).map fun cs => String.mk cs

/-- Embeds `p.error(fmt % v)`: Python first evaluates `fmt % v`; if that
formatting itself raises, the raised exception escapes and `p.error` is
never reached.  Otherwise the parser error with the formatted message is
raised. -/
def perror {α : Type} (fmt : String) (v : PyVal) : Except PyExc α :=
  match pyFormat1 fmt v with
  | .error e => .error e
  | .ok msg => .error (.parserError msg)

/-- Python truthiness of an optional string option (argparse leaves an
unsupplied option as `None`; an empty string is also falsy). -/
def pyTruthy : Option String → Bool
  | none => false
  | some s => if s = "" then false else true

/-- The parsed command-line arguments together with the `os.path.isfile`
view of the local filesystem used by the module-level validation block. -/
structure ArgsEnv where
  reference_genome : String
  exac_sites_vcf : Option String
  version : Option String
  isfile : String → Bool

/-- The configuration surviving validation (with `args.version` resolved to
its default when falsy). -/
structure Config where
  reference_genome : String
  exac_sites_vcf : Option String
  version : String
  deriving DecidableEq

/-- Embeds the `if args.exac_sites_vcf:` validation block of `master.py`
(lines 33-38): the vcf must exist, and its `.tbi` index must exist.  Note
the second message, `"ExAC sites vcf: tabix index not found: %{s}.tbi"`,
contains a malformed directive, so reaching it raises `ValueError` rather
than the intended parser error. -/
def check_exac (e : ArgsEnv) : Except PyExc Unit :=
  if pyTruthy e.exac_sites_vcf then
    let ev := e.exac_sites_vcf.getD ""
    if ¬ e.isfile ev then
      perror "ExAC sites vcf: file not found: %s" (PyVal.str ev)
    else if ¬ e.isfile (ev ++ ".tbi") then
      perror "ExAC sites vcf: tabix index not found: %{s}.tbi" (PyVal.str ev)
    else Except.ok ()
  else Except.ok ()

/-- Embeds the `if args.version:` block of `master.py` (lines 40-44): a
truthy version other than "37" or "38" goes to
`p.error("Unrecognised genome version: %d" % args.version)` (whose `%d`
applied to a string raises `TypeError`); a falsy version defaults to "37". -/
def check_version (e : ArgsEnv) : Except PyExc String :=
  if pyTruthy e.version then
    let v := e.version.getD ""
    if v ≠ "37" ∧ v ≠ "38" then
      perror "Unrecognised genome version: %d" (PyVal.str v)
    else Except.ok v
  else Except.ok "37"

/-- Embeds the module-level argument validation of `master.py` (lines
29-44), in source order: reference-genome existence check (whose message
`"genome reference: file not found: %d"` formats a string with `%d`,
raising `TypeError`), then the ExAC block, then the version block. -/
def validate_args (e : ArgsEnv) : Except PyExc Config :=
  if ¬ e.isfile e.reference_genome then
    perror "genome reference: file not found: %d" (PyVal.str e.reference_genome)
  else match check_exac e with
    | .error exc => .error exc
    | .ok () =>
      match check_version e with
      | .error exc => .error exc
      | .ok v => .ok ⟨e.reference_genome, e.exac_sites_vcf, v⟩

/-! ### Timestamp parsing: `datetime.strptime(response[4:], "%Y%m%d%H%M%S")`
and `.strftime("%s")` -/

def isLeapYear (y : Nat) : Bool :=
  decide ((y % 4 = 0 ∧ y % 100 ≠ 0) ∨ y % 400 = 0)

def daysInMonth (y m : Nat) : Nat :=
  if m = 2 then (if isLeapYear y then 29 else 28)
  else if m = 4 ∨ m = 6 ∨ m = 9 ∨ m = 11 then 30
  else 31

/-- Days of the proleptic Gregorian calendar strictly before year `y`
(as in CPython `datetime`: `_days_before_year`). -/
def daysBeforeYear (y : Nat) : Nat :=
  let p := y - 1
  365 * p + p / 4 + p / 400 - p / 100

/-- Days of year `y` strictly before month `m`. -/
def daysBeforeMonth (y m : Nat) : Nat :=
  (List.range (m - 1)).foldl (fun acc i => acc + daysInMonth y (i + 1)) 0

/-- Proleptic Gregorian ordinal of a date, `datetime.toordinal`
(day 1 is 0001-01-01; 1970-01-01 is day 719163). -/
def toordinal (y m d : Nat) : Nat :=
  daysBeforeYear y + daysBeforeMonth y m + d

/-- A parsed naive `datetime` (no timezone attached). -/
structure NaiveDT where
  year : Nat
  month : Nat
  day : Nat
  hour : Nat
  minute : Nat
  second : Nat
  deriving DecidableEq

/-- Embeds `datetime.strptime(s, "%Y%m%d%H%M%S")` on the well-formed
14-character bodies the MDTM reply carries: fourteen digits split
4-2-2-2-2-2, with the range checks the `datetime` constructor enforces
(year 1-9999, month 1-12, day within the month, hour ≤ 23,
minute and second ≤ 59).  Returns `none` where CPython raises
`ValueError`. -/
def strptime14 (s : String) : Option NaiveDT :=
  let cs := s.data
  if cs.length = 14 ∧ cs.all Char.isDigit then
    let num := fun (a b : Nat) =>
      ((cs.drop a).take (b - a)).foldl (fun acc c => 10 * acc + (c.toNat - 48)) 0
    let y := num 0 4
    let mo := num 4 6
    let d := num 6 8
    let h := num 8 10
    let mi := num 10 12
    let sec := num 12 14
    if 1 ≤ y ∧ y ≤ 9999 ∧ 1 ≤ mo ∧ mo ≤ 12 ∧ 1 ≤ d ∧ d ≤ daysInMonth y mo
        ∧ h ≤ 23 ∧ mi ≤ 59 ∧ sec ≤ 59 then
      some ⟨y, mo, d, h, mi, sec⟩
    else none
  else none

/-- Seconds since the Unix epoch of a naive datetime read as a UTC wall
clock (719163 is `toordinal 1970 1 1`). -/
def naiveEpochUTC (t : NaiveDT) : Int :=
  ((toordinal t.year t.month t.day : Int) - 719163) * 86400
    + (t.hour : Int) * 3600 + (t.minute : Int) * 60 + (t.second : Int)

/-- Follows the spec's words (§4.3): the checker "parses the returned
fixed-format timestamp (`YYYYMMDDhhmmss`, UTC) into an absolute instant" —
the UTC instant of the timestamp body, in seconds since the Unix epoch.
Kept separate from the source embedding so the two can be compared. -/
def specUtcInstant (body : String) : Option Int :=
  (strptime14 body).map naiveEpochUTC

/-! ### The remote freshness check -/

/-- Outcome of `ftplib.FTP(host)` / `login()` / `sendcmd("MDTM " + path)`:
either a connection failure, an authentication failure, or a reply string
(such as `"213 20230101120000"`). -/
inductive FtpReply where
  | connError
  | authError
  | reply (response : String)
  deriving DecidableEq

/-- The environment `get_remote_file_changed_time` runs in: the FTP
server's behaviour, and the local UTC offset (seconds east of UTC) that
`strftime("%s")` — which converts via `mktime`, i.e. in the process's
local timezone — applies to the parsed naive datetime. -/
structure FtpEnv where
  mdtm : String → String → FtpReply
  tzOffset : Int

/-- Embeds `get_remote_file_changed_time` (lines 46-52): connect and log
in (a failure propagates as an exception), send `MDTM`, parse `response[4:]`
with `strptime`, and convert with `int(... .strftime("%s"))`.  Since
`strftime("%s")` interprets the naive datetime in the local timezone, the
returned value is the naive UTC reading minus the local UTC offset. -/
def get_remote_file_changed_time (env : FtpEnv) (ftp_host ftp_path : String) :
    Except PyExc Int :=
  match env.mdtm ftp_host ftp_path with
  | .connError => .error (.networkError "ftplib.FTP: connection failed")
  | .authError => .error (.networkError "ftplib.FTP.login: authentication failed")
  | .reply response =>
    match strptime14 (response.drop 4) with
    | none => .error (.valueError "time data does not match format %Y%m%d%H%M%S")
    | some t => .ok (naiveEpochUTC t - env.tzOffset)

/-! ### `download_if_changed` -/

/-- The local filesystem as seen through `os.path`: `mtime p = some t`
when `os.path.isfile(p)` holds with `os.path.getmtime(p) = t`, and `none`
when the file is absent. -/
structure FS where
  mtime : String → Option Int

/-- `os.path.getmtime(local_path) if os.path.isfile(local_path) else 0`
(line 56). -/
def local_changed_time (fs : FS) (local_path : String) : Int :=
  match fs.mtime local_path with
  | some t => t
  | none => 0

/-- Observable events of a run: the up-to-date log message of
`download_if_changed`, the completion of the phase-1 parallel join
(`jr.run()` returning), and the start of one step of the phase-2
sequential pipeline. -/
inductive Ev where
  | upToDateMsg (ftp_address : String)
  | phase1Join
  | phase2Step (cmd : String)
  deriving DecidableEq

/-- `"ftp://%s/%s" % (ftp_host, ftp_path)` (line 57). -/
def ftp_address_of (ftp_host ftp_path : String) : String :=
  "ftp://" ++ ftp_host ++ "/" ++ ftp_path

/-- The fetch job `pypez.Job("wget %s -O OUT:%s" % (ftp_address, local_path))`
(line 59), as its resolved command string. -/
def wget_job (ftp_address local_path : String) : String :=
  "wget " ++ ftp_address ++ " -O OUT:" ++ local_path

/-- Result state of one `download_if_changed` call: the job runner's
parallel queue, the filesystem, the log, and the exception (if the call
raised).  On an exception the queue and filesystem are returned as they
were when the exception escaped. -/
structure DLOut where
  jobs : List String
  fs : FS
  log : List Ev
  exc : Option PyExc

/-- Embeds `download_if_changed` (lines 54-61).  Line order is the
source's: the remote MDTM query runs first, unconditionally; only then is
the local mtime read.  `job_runner.add_parallel(...)` is modelled — from
the spec's Parallel Group Executor (§4.4), `pypez` not being part of the
repository — as appending the fetch job to the runner's queue.  In the
up-to-date branch nothing is scheduled and the message of line 61 is
logged. -/
def download_if_changed (env : FtpEnv) (jr : List String) (fs : FS)
    (local_path ftp_host ftp_path : String) : DLOut :=
  match get_remote_file_changed_time env ftp_host ftp_path with
  | .error e => ⟨jr, fs, [], some e⟩
  | .ok remote_changed_time =>
    let lct := local_changed_time fs local_path
    let addr := ftp_address_of ftp_host ftp_path
    if remote_changed_time > lct then
      ⟨jr ++ [wget_job addr local_path], fs, [], none⟩
    else
      ⟨jr, fs, [Ev.upToDateMsg addr], none⟩

/-! ### The phase-2 job list (`job = pypez.Job(); job.add(...)`) -/

/-- `os.path.basename` (no trailing-slash subtleties arise here). -/
def py_basename (s : String) : String :=
  (s.splitOn "/").getLastD ""

/-- `os.path.basename(args.exac_sites_vcf).split('.vcf')[0] + ".normalized.vcf.gz"`
(line 108). -/
def normalized_vcf_name (exac : String) : String :=
  ((py_basename exac).splitOn ".vcf").headD "" ++ ".normalized.vcf.gz"

def cmd_parse_clinvar_xml (version : String) : String :=
  "python -u IN:parse_clinvar_xml.py -x IN:ClinVarFullRelease_00-latest.xml.gz -o OUT:clinvar_table_raw.tsv -v "
    ++ version

def cmd_sort_raw : String :=
  "(cat IN:clinvar_table_raw.tsv | head -1 > OUT:clinvar_table_sorted.tsv ) && (cat IN:clinvar_table_raw.tsv | tail -n +2 | egrep -v \"^[XYM]\" | sort -k1,1n -k2,2n -k3,3 -k4,4 >> OUT:clinvar_table_sorted.tsv ) && (cat IN:clinvar_table_raw.tsv | tail -n +2 | egrep \"^[XYM]\" | sort -k1,1 -k2,2n -k3,3 -k4,4 >> OUT:clinvar_table_sorted.tsv )"

def cmd_dedup_sorted : String :=
  "python -u IN:dedup_clinvar.py < IN:clinvar_table_sorted.tsv > OUT:clinvar_table_dedup.tsv"

def cmd_fetch_normalize_py : String :=
  "wget -N https://raw.githubusercontent.com/ericminikel/minimal_representation/master/normalize.py"

def cmd_normalize (reference_genome : String) : String :=
  "python -u normalize.py -R IN:" ++ reference_genome
    ++ " < IN:clinvar_table_dedup.tsv > OUT:clinvar_table_dedup_normalized.tsv"

def cmd_join_data (version : String) : String :=
  "Rscript IN:join_data.R GRCh" ++ version

def cmd_sort_combined : String :=
  "(cat IN:clinvar_combined.tsv | head -1 > OUT:clinvar_combined_sorted.tsv ) && (cat IN:clinvar_combined.tsv | tail -n +2 | egrep -v \"^[XYM]\" | sort -k1,1n -k2,2n -k3,3 -k4,4 >> OUT:clinvar_combined_sorted.tsv ) && (cat IN:clinvar_combined.tsv | tail -n +2 | egrep \"^[XYM]\" | sort -k1,1 -k2,2n -k3,3 -k4,4 >> OUT:clinvar_combined_sorted.tsv )"

def cmd_dedup_combined : String :=
  "python -u IN:dedup_clinvar.py < IN:clinvar_combined_sorted.tsv | tee clinvar.tsv | bgzip -c > OUT:clinvar.tsv.gz"

def cmd_tabix_tsv : String :=
  "tabix -S 1 -s 1 -b 2 -e 2 IN:clinvar.tsv.gz"

def cmd_copy_tsv : String :=
  "cp IN:clinvar.tsv IN:clinvar.tsv.gz IN:clinvar.tsv.gz.tbi ../output"

def cmd_make_vcf : String :=
  "python -u IN:clinvar_table_to_vcf.py IN:clinvar.tsv | bgzip -c > OUT:clinvar.vcf.gz"

def cmd_tabix_vcf : String :=
  "tabix IN:clinvar.vcf.gz"

def cmd_copy_vcf : String :=
  "cp IN:clinvar.vcf.gz IN:clinvar.vcf.gz.tbi ../output"

def cmd_vt_normalize (exac reference_genome nv : String) : String :=
  "vt decompose -s IN:" ++ exac ++ " | vt normalize -r IN:" ++ reference_genome
    ++ " - | bgzip -c > OUT:" ++ nv

def cmd_tabix_normalized (nv : String) : String :=
  "tabix IN:" ++ nv

def cmd_add_exac_fields (nv : String) : String :=
  "python -u IN:add_exac_fields.py -i IN:clinvar.tsv -e IN:" ++ nv
    ++ " | bgzip -c > OUT:clinvar_with_exac.tsv.gz"

def cmd_tabix_exac : String :=
  "tabix -S 1 -s 1 -b 2 -e 2 IN:clinvar_with_exac.tsv.gz"

def cmd_copy_exac : String :=
  "cp IN:clinvar_with_exac.tsv.gz IN:clinvar_with_exac.tsv.gz.tbi ../output"

/-- The thirteen unconditional `job.add(...)` commands (lines 73-104), in
source order. -/
def base_job_cmds (cfg : Config) : List String :=
  [cmd_parse_clinvar_xml cfg.version,
   cmd_sort_raw,
   cmd_dedup_sorted,
   cmd_fetch_normalize_py,
   cmd_normalize cfg.reference_genome,
   cmd_join_data cfg.version,
   cmd_sort_combined,
   cmd_dedup_combined,
   cmd_tabix_tsv,
   cmd_copy_tsv,
   cmd_make_vcf,
   cmd_tabix_vcf,
   cmd_copy_vcf]

/-- The five trailing ExAC-enrichment commands of the
`if args.exac_sites_vcf:` block (lines 107-113). -/
def exac_job_cmds (cfg : Config) (exac : String) : List String :=
  let nv := normalized_vcf_name exac
  [cmd_vt_normalize exac cfg.reference_genome nv,
   cmd_tabix_normalized nv,
   cmd_add_exac_fields nv,
   cmd_tabix_exac,
   cmd_copy_exac]

/-- Embeds the construction of the phase-2 `pypez.Job` (lines 70-113) as
the sequence of `job.add` calls in source order, ending with the
`if args.exac_sites_vcf:` conditional block.  The list is fully
determined by the configuration, before anything is executed. -/
def build_job (cfg : Config) : List String :=
  let job : List String := []
  let job := job ++ [cmd_parse_clinvar_xml cfg.version]
  let job := job ++ [cmd_sort_raw]
  let job := job ++ [cmd_dedup_sorted]
  let job := job ++ [cmd_fetch_normalize_py]
  let job := job ++ [cmd_normalize cfg.reference_genome]
  let job := job ++ [cmd_join_data cfg.version]
  let job := job ++ [cmd_sort_combined]
  let job := job ++ [cmd_dedup_combined]
  let job := job ++ [cmd_tabix_tsv]
  let job := job ++ [cmd_copy_tsv]
  let job := job ++ [cmd_make_vcf]
  let job := job ++ [cmd_tabix_vcf]
  let job := job ++ [cmd_copy_vcf]
  if pyTruthy cfg.exac_sites_vcf then
    let exac := cfg.exac_sites_vcf.getD ""
    let nv := normalized_vcf_name exac
    let job := job ++ [cmd_vt_normalize exac cfg.reference_genome nv]
    let job := job ++ [cmd_tabix_normalized nv]
    let job := job ++ [cmd_add_exac_fields nv]
    let job := job ++ [cmd_tabix_exac]
    let job := job ++ [cmd_copy_exac]
    job
  else job

/-! ### The executors and the main flow -/

/-- Result of running the phase-2 sequential pipeline: the steps started,
in order, and the exception of the failing step, when one failed. -/
structure SeqOut where
  events : List Ev
  exc : Option PyExc

/-- Modelled from the spec: `pypez`'s sequential pipeline executor
(`jr.run(job)`, §4.5) — `pypez` is imported, not part of this repository.
It runs the pre-built ordered command list one step at a time; a step
failure is fatal and no further step is attempted.  Which steps succeed
(and each step's internal run-or-skip freshness outcome) is abstracted
into the `ok` oracle; the executor itself never alters the list of
steps. -/
def run_seq (cmds : List String) (ok : String → Bool) : SeqOut :=
  match cmds with
  | [] => ⟨[], none⟩
  | c :: cs =>
    if ok c then
      let r := run_seq cs ok
      ⟨Ev.phase2Step c :: r.events, r.exc⟩
    else ⟨[Ev.phase2Step c], some (.processError c)⟩

/-- Modelled from the spec: the phase-1 `jr.run()` barrier join (§4.4) —
it returns only after every scheduled fetch job has terminated, and
reports failure if any member failed. -/
def run_parallel (jobs : List String) (fetchOk : String → Bool) : Option PyExc :=
  if jobs.all fetchOk then none else some (.processError "parallel fetch group failed")

/-- The full environment a run of `master.py` sees after argument
validation: the FTP server, the local filesystem, the validated
configuration, and the outcomes of the fetch jobs and phase-2 steps. -/
structure World where
  ftp : FtpEnv
  fs : FS
  cfg : Config
  fetchOk : String → Bool
  stepOk : String → Bool

def clinvar_host : String := "ftp.ncbi.nlm.nih.gov"

def clinvar_xml_local : String := "ClinVarFullRelease_00-latest.xml.gz"

def clinvar_xml_remote : String := "/pub/clinvar/xml/ClinVarFullRelease_00-latest.xml.gz"

def variant_summary_local : String := "variant_summary.txt.gz"

def variant_summary_remote : String := "/pub/clinvar/tab_delimited/variant_summary.txt.gz"

/-- The first phase-1 check (line 66), on a fresh job runner. -/
def phase1_d1 (w : World) : DLOut :=
  download_if_changed w.ftp [] w.fs clinvar_xml_local clinvar_host clinvar_xml_remote

/-- The second phase-1 check (line 67), on the state the first left. -/
def phase1_d2 (w : World) : DLOut :=
  download_if_changed w.ftp (phase1_d1 w).jobs (phase1_d1 w).fs
    variant_summary_local clinvar_host variant_summary_remote

/-- Phase 1 raised: one of the two remote checks raised, or the parallel
fetch join reported a failure. -/
def phase1_failed (w : World) : Prop :=
  (phase1_d1 w).exc ≠ none ∨ (phase1_d2 w).exc ≠ none
    ∨ run_parallel (phase1_d2 w).jobs w.fetchOk ≠ none

/-- Overall outcome of a run: the events in the order they happened, and
the exception that aborted the run (if any). -/
structure MainOut where
  events : List Ev
  exc : Option PyExc

/-- Embeds the top level of `master.py` after validation (lines 64-117):
the two `download_if_changed` calls, the `jr.run()` parallel join, then
the construction of the phase-2 job and `jr.run(job)`.  An exception
aborts the run at the point it is raised. -/
def main_run (w : World) : MainOut :=
  let d1 := phase1_d1 w
  match d1.exc with
  | some e => ⟨d1.log, some e⟩
  | none =>
    let d2 := phase1_d2 w
    match d2.exc with
    | some e => ⟨d1.log ++ d2.log, some e⟩
    | none =>
      match run_parallel d2.jobs w.fetchOk with
      | some e => ⟨d1.log ++ d2.log ++ [Ev.phase1Join], some e⟩
      | none =>
        let r := run_seq (build_job w.cfg) w.stepOk
        ⟨d1.log ++ d2.log ++ [Ev.phase1Join] ++ r.events, r.exc⟩

/-! ### Claims -/

/-- C1: with `r` the instant the remote freshness check computes and
`local_changed_time fs lp` the local mtime (epoch-zero when absent),
`download_if_changed` schedules a fetch job iff `r` is strictly greater;
on an equal or older remote timestamp the queue is unchanged and the
up-to-date message is logged. -/
theorem download_schedules_fetch_iff_remote_newer
    (env : FtpEnv) (jr : List String) (fs : FS) (lp h p : String) (r : Int)
    (hr : get_remote_file_changed_time env h p = .ok r) :
    ((download_if_changed env jr fs lp h p).jobs ≠ jr ↔ r > local_changed_time fs lp)
    ∧ (r > local_changed_time fs lp →
        download_if_changed env jr fs lp h p =
          ⟨jr ++ [wget_job (ftp_address_of h p) lp], fs, [], none⟩)
    ∧ (¬ r > local_changed_time fs lp →
        download_if_changed env jr fs lp h p =
          ⟨jr, fs, [Ev.upToDateMsg (ftp_address_of h p)], none⟩) := by
  unfold download_if_changed
  rw [hr]
  dsimp only
  by_cases hgt : r > local_changed_time fs lp
  · rw [if_pos hgt]
    refine ⟨⟨fun _ => hgt, fun _ hEq => ?_⟩, fun _ => rfl, fun hn => absurd hgt hn⟩
    have hlen := congrArg List.length hEq
    simp at hlen
  · rw [if_neg hgt]
    exact ⟨⟨fun hne => absurd rfl hne, fun hgt2 => absurd hgt2 hgt⟩,
      fun hgt2 => absurd hgt2 hgt, fun _ => rfl⟩

/-- Witness for C1 at a concrete input: remote reply
`213 20230101120000`, UTC locale, local file absent — the fetch job is
scheduled. -/
theorem download_schedules_fetch_iff_remote_newer_witness :
    download_if_changed ⟨fun _ _ => FtpReply.reply "213 20230101120000", 0⟩ []
        ⟨fun _ => none⟩ "f.gz" "h" "/p" =
      ⟨[wget_job (ftp_address_of "h" "/p") "f.gz"], ⟨fun _ => none⟩, [], none⟩ := by
  have := (download_schedules_fetch_iff_remote_newer
    ⟨fun _ _ => FtpReply.reply "213 20230101120000", 0⟩ [] ⟨fun _ => none⟩
    "f.gz" "h" "/p" 1672574400 rfl).2.1 (by decide)
  simpa using this

/-- C2 (divergence): the spec-side reading of the MDTM body
`20230101120000` as a UTC instant is `1672574400`, but
`get_remote_file_changed_time` converts the parsed naive datetime with
`strftime("%s")`, i.e. in the local timezone: in a UTC-5 locale
(`tzOffset = -18000`) it returns `1672592400`, not the UTC instant; only
in a UTC locale do the two coincide. -/
theorem get_remote_time_uses_local_timezone_not_utc :
    specUtcInstant "20230101120000" = some 1672574400
    ∧ get_remote_file_changed_time
        ⟨fun _ _ => FtpReply.reply "213 20230101120000", -18000⟩
        clinvar_host clinvar_xml_remote = .ok 1672592400
    ∧ get_remote_file_changed_time
        ⟨fun _ _ => FtpReply.reply "213 20230101120000", 0⟩
        clinvar_host clinvar_xml_remote = .ok 1672574400
    ∧ (1672592400 : Int) ≠ 1672574400 :=
  ⟨rfl, rfl, rfl, by decide⟩

/-- C3 (divergence): each of the three configuration faults hits a broken
`%`-format string, so the interpreter raises `TypeError` or `ValueError`
during message formatting and the intended `p.error` parser error is
never produced: a missing reference genome (`%d` applied to a string), a
supplied ExAC vcf whose `.tbi` index is absent (`%{s}` is an unsupported
format directive), and an unrecognised version (`%d` applied to a
string). -/
theorem config_faults_raise_interpreter_errors :
    validate_args ⟨"ref.fa", none, none, fun _ => false⟩
        = .error (.typeError "%d format: a number is required, not str")
    ∧ validate_args ⟨"ref.fa", some "exac.vcf", none,
        fun s => s == "ref.fa" || s == "exac.vcf"⟩
        = .error (.valueError "unsupported format character")
    ∧ validate_args ⟨"ref.fa", none, some "19", fun _ => true⟩
        = .error (.typeError "%d format: a number is required, not str") :=
  ⟨rfl, rfl, rfl⟩

/-- C4: a connection, authentication or timestamp-parsing failure of the
remote freshness check propagates out of `download_if_changed` as the
same fatal exception; no such failure produces an up-to-date report. -/
theorem remote_check_failure_is_fatal
    (env : FtpEnv) (jr : List String) (fs : FS) (lp h p : String) (e : PyExc)
    (hfail : get_remote_file_changed_time env h p = .error e) :
    (download_if_changed env jr fs lp h p).exc = some e
    ∧ ∀ a, Ev.upToDateMsg a ∉ (download_if_changed env jr fs lp h p).log := by
  unfold download_if_changed
  rw [hfail]
  exact ⟨rfl, fun a ha => by simp at ha⟩

/-- Witness for C4 at a concrete input: an unreachable host. -/
theorem remote_check_failure_is_fatal_witness :
    (download_if_changed ⟨fun _ _ => FtpReply.connError, 0⟩ [] ⟨fun _ => none⟩
        "f.gz" "h" "/p").exc = some (.networkError "ftplib.FTP: connection failed")
    ∧ Ev.upToDateMsg (ftp_address_of "h" "/p") ∉
        (download_if_changed ⟨fun _ _ => FtpReply.connError, 0⟩ [] ⟨fun _ => none⟩
          "f.gz" "h" "/p").log :=
  ⟨(remote_check_failure_is_fatal ⟨fun _ _ => FtpReply.connError, 0⟩ [] ⟨fun _ => none⟩
      "f.gz" "h" "/p" (.networkError "ftplib.FTP: connection failed") rfl).1,
   (remote_check_failure_is_fatal ⟨fun _ _ => FtpReply.connError, 0⟩ [] ⟨fun _ => none⟩
      "f.gz" "h" "/p" (.networkError "ftplib.FTP: connection failed") rfl).2 _⟩

/-- C5: when the local copy is absent its mtime counts as epoch zero, so
any remote check result that is a positive instant schedules the fetch. -/
theorem absent_local_counts_as_epoch_zero
    (env : FtpEnv) (jr : List String) (fs : FS) (lp h p : String) (r : Int)
    (habs : fs.mtime lp = none)
    (hr : get_remote_file_changed_time env h p = .ok r)
    (hpos : 0 < r) :
    local_changed_time fs lp = 0
    ∧ download_if_changed env jr fs lp h p =
        ⟨jr ++ [wget_job (ftp_address_of h p) lp], fs, [], none⟩ := by
  have hl : local_changed_time fs lp = 0 := by
    unfold local_changed_time
    rw [habs]
  refine ⟨hl, ?_⟩
  unfold download_if_changed
  rw [hr]
  dsimp only
  rw [if_pos (by rw [hl]; exact hpos)]

/-- Witness for C5 at the spec's own scenario: local artifact absent,
remote metadata `20230101120000`, UTC locale. -/
theorem absent_local_counts_as_epoch_zero_witness :
    local_changed_time ⟨fun _ => none⟩ clinvar_xml_local = 0
    ∧ download_if_changed ⟨fun _ _ => FtpReply.reply "213 20230101120000", 0⟩ []
        ⟨fun _ => none⟩ clinvar_xml_local clinvar_host clinvar_xml_remote =
      ⟨[] ++ [wget_job (ftp_address_of clinvar_host clinvar_xml_remote) clinvar_xml_local],
       ⟨fun _ => none⟩, [], none⟩ :=
  absent_local_counts_as_epoch_zero ⟨fun _ _ => FtpReply.reply "213 20230101120000", 0⟩
    [] ⟨fun _ => none⟩ clinvar_xml_local clinvar_host clinvar_xml_remote
    1672574400 rfl rfl (by decide)

/-- C9: `download_if_changed` leaves the filesystem untouched, only ever
appends at most the single fetch job to the runner's queue, logs nothing
but up-to-date messages, and in the up-to-date (logging) case leaves the
queue exactly as it was. -/
theorem download_only_schedules_or_logs
    (env : FtpEnv) (jr : List String) (fs : FS) (lp h p : String) :
    (download_if_changed env jr fs lp h p).fs = fs
    ∧ ((download_if_changed env jr fs lp h p).jobs = jr
        ∨ (download_if_changed env jr fs lp h p).jobs
            = jr ++ [wget_job (ftp_address_of h p) lp])
    ∧ (∀ e ∈ (download_if_changed env jr fs lp h p).log, ∃ a, e = Ev.upToDateMsg a)
    ∧ ((download_if_changed env jr fs lp h p).log ≠ [] →
        (download_if_changed env jr fs lp h p).jobs = jr) := by
  unfold download_if_changed
  cases hm : get_remote_file_changed_time env h p with
  | error e => exact ⟨rfl, Or.inl rfl, by simp, fun _ => rfl⟩
  | ok r =>
    dsimp only
    by_cases hgt : r > local_changed_time fs lp
    · rw [if_pos hgt]
      exact ⟨rfl, Or.inr rfl, by simp, by simp⟩
    · rw [if_neg hgt]
      refine ⟨rfl, Or.inl rfl, ?_, fun _ => rfl⟩
      intro e he
      simp at he
      exact ⟨_, he⟩

/-- Witness for C9 at a concrete up-to-date input (local mtime far in the
future): the queue and filesystem are unchanged. -/
theorem download_only_schedules_or_logs_witness :
    (download_if_changed ⟨fun _ _ => FtpReply.reply "213 20230101120000", 0⟩ []
        ⟨fun _ => some 9999999999⟩ "f.gz" "h" "/p").fs = ⟨fun _ => some 9999999999⟩
    ∧ (download_if_changed ⟨fun _ _ => FtpReply.reply "213 20230101120000", 0⟩ []
        ⟨fun _ => some 9999999999⟩ "f.gz" "h" "/p").jobs = [] :=
  ⟨(download_only_schedules_or_logs ⟨fun _ _ => FtpReply.reply "213 20230101120000", 0⟩
      [] ⟨fun _ => some 9999999999⟩ "f.gz" "h" "/p").1,
   (download_only_schedules_or_logs ⟨fun _ _ => FtpReply.reply "213 20230101120000", 0⟩
      [] ⟨fun _ => some 9999999999⟩ "f.gz" "h" "/p").2.2.2 (by decide)⟩

/-- C10: the remote metadata query comes first, so its failure aborts the
call with the queue unchanged even when the local copy is absent (and a
fetch would have been needed regardless). -/
theorem remote_query_precedes_local_check
    (env : FtpEnv) (jr : List String) (fs : FS) (lp h p : String) (e : PyExc)
    (habs : fs.mtime lp = none)
    (hfail : get_remote_file_changed_time env h p = .error e) :
    (download_if_changed env jr fs lp h p).jobs = jr
    ∧ (download_if_changed env jr fs lp h p).exc = some e := by
  unfold download_if_changed
  rw [hfail]
  exact ⟨rfl, rfl⟩

/-- Witness for C10 at a concrete input: host unreachable, local file
absent — no fetch is scheduled and the exception escapes. -/
theorem remote_query_precedes_local_check_witness :
    (download_if_changed ⟨fun _ _ => FtpReply.connError, 0⟩ [] ⟨fun _ => none⟩
        clinvar_xml_local clinvar_host clinvar_xml_remote).jobs = []
    ∧ (download_if_changed ⟨fun _ _ => FtpReply.connError, 0⟩ [] ⟨fun _ => none⟩
        clinvar_xml_local clinvar_host clinvar_xml_remote).exc
      = some (.networkError "ftplib.FTP: connection failed") :=
  remote_query_precedes_local_check ⟨fun _ _ => FtpReply.connError, 0⟩ [] ⟨fun _ => none⟩
    clinvar_xml_local clinvar_host clinvar_xml_remote
    (.networkError "ftplib.FTP: connection failed") rfl rfl

/-- The sequential executor only ever works through a front segment of the
pre-built command list, in order: it never inserts, drops or reorders
steps mid-run. -/
theorem run_seq_events_front_segment (cmds : List String) (ok : String → Bool) :
    ∃ k, (run_seq cmds ok).events = (cmds.take k).map Ev.phase2Step := by
  induction cmds with
  | nil => exact ⟨0, rfl⟩
  | cons c cs ih =>
    unfold run_seq
    by_cases hc : ok c
    · obtain ⟨k, hk⟩ := ih
      rw [if_pos hc]
      exact ⟨k + 1, by simp [hk]⟩
    · rw [if_neg hc]
      exact ⟨1, by simp⟩

/-- C6 counterexample: with `--exac-sites-vcf` supplied as the empty
string the option is present (`some ""` is not `none`) yet, the value
being falsy in Python, no trailing enrichment step is appended. -/
theorem exac_empty_string_supplied_adds_no_trailing_steps :
    (some "" : Option String) ≠ none
    ∧ build_job ⟨"ref.fa", some "", "37"⟩ = base_job_cmds ⟨"ref.fa", some "", "37"⟩ :=
  ⟨by decide, rfl⟩

/-- C6 (amended): the five trailing ExAC steps are appended iff the
exac-sites-vcf option is supplied with a truthy (non-empty) value, the
decision is a pure function of the configuration taken at
construction time, and the executor then works through the pre-built
list in order without any mid-run branching. -/
theorem trailing_exac_steps_iff_truthy_option (cfg : Config) (ok : String → Bool) :
    (pyTruthy cfg.exac_sites_vcf = true →
      build_job cfg = base_job_cmds cfg ++ exac_job_cmds cfg (cfg.exac_sites_vcf.getD ""))
    ∧ (pyTruthy cfg.exac_sites_vcf = false → build_job cfg = base_job_cmds cfg)
    ∧ ∃ k, (run_seq (build_job cfg) ok).events = ((build_job cfg).take k).map Ev.phase2Step := by
  refine ⟨?_, ?_, run_seq_events_front_segment _ _⟩
  · intro ht
    unfold build_job
    rw [if_pos ht]
    simp only [base_job_cmds, exac_job_cmds, List.nil_append, List.cons_append,
      List.append_nil, List.append_assoc]
  · intro hf
    unfold build_job
    rw [if_neg (by simp [hf])]
    simp only [base_job_cmds, List.nil_append, List.cons_append, List.append_nil]

/-- Witness for C6 at a concrete input: a truthy ExAC vcf value yields
exactly the base steps followed by the five enrichment steps. -/
theorem trailing_exac_steps_iff_truthy_option_witness :
    build_job ⟨"ref.fa", some "e.vcf", "37"⟩
      = base_job_cmds ⟨"ref.fa", some "e.vcf", "37"⟩
        ++ exac_job_cmds ⟨"ref.fa", some "e.vcf", "37"⟩ "e.vcf" := by
  have h := (trailing_exac_steps_iff_truthy_option ⟨"ref.fa", some "e.vcf", "37"⟩
    (fun _ => true)).1 (by decide)
  simpa using h

/-- C8 counterexample: `--version` supplied as the empty string — a value
other than "37" and "38" — is not rejected: validation succeeds and the
empty value is silently replaced by the default. -/
theorem version_empty_string_accepted_as_default :
    validate_args ⟨"ref.fa", none, some "", fun _ => true⟩ = .ok ⟨"ref.fa", none, "37"⟩
    ∧ ("" : String) ≠ "37" ∧ ("" : String) ≠ "38" :=
  ⟨rfl, by decide, by decide⟩

/-- C8 (amended): with the reference genome present and no ExAC option,
validation succeeds iff the version is falsy (omitted or empty) or one of
"37" and "38"; a falsy version resolves to the default "37"; and the
resolved version is interpolated into the first constructed pipeline
command. -/
theorem version_enum_default_and_command_use (e : ArgsEnv)
    (href : e.isfile e.reference_genome = true)
    (hex : e.exac_sites_vcf = none) :
    ((∃ c, validate_args e = .ok c)
        ↔ (pyTruthy e.version = false ∨ e.version = some "37" ∨ e.version = some "38"))
    ∧ (pyTruthy e.version = false →
        validate_args e = .ok ⟨e.reference_genome, none, "37"⟩)
    ∧ (∀ c, validate_args e = .ok c →
        (build_job c).head? = some (cmd_parse_clinvar_xml c.version)) := by
  have hexac : check_exac e = .ok () := by
    unfold check_exac
    rw [hex]
    rfl
  have hhead : ∀ c : Config, (build_job c).head? = some (cmd_parse_clinvar_xml c.version) := by
    intro c
    unfold build_job
    by_cases hcv : pyTruthy c.exac_sites_vcf
    · rw [if_pos hcv]; rfl
    · rw [if_neg hcv]; rfl
  have hval : validate_args e =
      match check_version e with
      | .error exc => .error exc
      | .ok v => .ok ⟨e.reference_genome, e.exac_sites_vcf, v⟩ := by
    unfold validate_args
    rw [if_neg (by simp [href]), hexac]
  refine ⟨?_, ?_, fun c hc => hhead c⟩
  · cases hv : e.version with
    | none =>
      have : check_version e = .ok "37" := by unfold check_version; rw [hv]; rfl
      rw [hval, this]
      simp [pyTruthy, hv]
    | some v =>
      by_cases hve : v = ""
      · have : check_version e = .ok "37" := by
          unfold check_version
          rw [hv, hve]
          rfl
        rw [hval, this]
        simp [pyTruthy, hv, hve]
      · by_cases h37 : v = "37"
        · have : check_version e = .ok v := by
            unfold check_version
            rw [hv]
            simp [pyTruthy, hve, h37]
          rw [hval, this]
          simp [pyTruthy, hv, hve, h37]
        · by_cases h38 : v = "38"
          · have : check_version e = .ok v := by
              unfold check_version
              rw [hv]
              simp [pyTruthy, hve, h38]
            rw [hval, this]
            simp [pyTruthy, hv, hve, h38]
          · have : check_version e
                = .error (.typeError "%d format: a number is required, not str") := by
              unfold check_version
              rw [hv]
              simp only [pyTruthy, hve, if_neg, ite_false]
              rw [if_pos (by simp [hve]), if_pos ⟨h37, h38⟩]
              rfl
            rw [hval, this]
            simp [pyTruthy, hv, hve, h37, h38]
  · intro hfalsy
    have : check_version e = .ok "37" := by
      unfold check_version
      rw [if_neg (by simp [hfalsy])]
    rw [hval, this, hex]

/-- Witness for C8 at a concrete input: version omitted — validation
succeeds with the default "37", which heads the first pipeline command. -/
theorem version_enum_default_and_command_use_witness :
    validate_args ⟨"ref.fa", none, none, fun _ => true⟩ = .ok ⟨"ref.fa", none, "37"⟩
    ∧ (build_job ⟨"ref.fa", none, "37"⟩).head? = some (cmd_parse_clinvar_xml "37") := by
  have h := version_enum_default_and_command_use ⟨"ref.fa", none, none, fun _ => true⟩ rfl rfl
  exact ⟨h.2.1 (by decide), h.2.2 ⟨"ref.fa", none, "37"⟩ (h.2.1 (by decide))⟩

/-- `download_if_changed` never logs a phase-2 step event. -/
theorem download_log_has_no_phase2_step (env : FtpEnv) (jr : List String) (fs : FS)
    (lp h p c : String) :
    Ev.phase2Step c ∉ (download_if_changed env jr fs lp h p).log := by
  unfold download_if_changed
  cases hm : get_remote_file_changed_time env h p with
  | error e => simp
  | ok r =>
    dsimp only
    by_cases hgt : r > local_changed_time fs lp
    · rw [if_pos hgt]
      simp
    · rw [if_neg hgt]
      simp

theorem phase1_d1_no_phase2 (w : World) (c : String) :
    Ev.phase2Step c ∉ (phase1_d1 w).log :=
  download_log_has_no_phase2_step w.ftp [] w.fs clinvar_xml_local clinvar_host
    clinvar_xml_remote c

theorem phase1_d2_no_phase2 (w : World) (c : String) :
    Ev.phase2Step c ∉ (phase1_d2 w).log :=
  download_log_has_no_phase2_step w.ftp (phase1_d1 w).jobs (phase1_d1 w).fs
    variant_summary_local clinvar_host variant_summary_remote c

/-- C7: in every run the events split into a join-free front and a
suffix headed by the phase-1 join, so no phase-2 step starts before
`jr.run()` has returned; and a fatal phase-1 error (either remote check,
or a failed member of the fetch group) aborts the run with no phase-2
step ever started. -/
theorem phase1_join_precedes_phase2 (w : World) :
    (∃ pre post, (main_run w).events = pre ++ post
      ∧ (∀ c, Ev.phase2Step c ∉ pre)
      ∧ (post = [] ∨ post.head? = some Ev.phase1Join))
    ∧ (phase1_failed w →
        (main_run w).exc ≠ none ∧ ∀ c, Ev.phase2Step c ∉ (main_run w).events) := by
  have hmem : ∀ c, Ev.phase2Step c ∉ (phase1_d1 w).log ++ (phase1_d2 w).log := by
    intro c hc
    rcases List.mem_append.mp hc with h | h
    · exact phase1_d1_no_phase2 w c h
    · exact phase1_d2_no_phase2 w c h
  unfold main_run phase1_failed
  dsimp only
  cases h1 : (phase1_d1 w).exc with
  | some e =>
    refine ⟨⟨(phase1_d1 w).log, [], by simp, fun c => phase1_d1_no_phase2 w c, Or.inl rfl⟩,
      fun _ => ⟨by simp, fun c => phase1_d1_no_phase2 w c⟩⟩
  | none =>
    cases h2 : (phase1_d2 w).exc with
    | some e =>
      refine ⟨⟨(phase1_d1 w).log ++ (phase1_d2 w).log, [], by simp, hmem, Or.inl rfl⟩,
        fun _ => ⟨by simp, hmem⟩⟩
    | none =>
      cases h3 : run_parallel (phase1_d2 w).jobs w.fetchOk with
      | some e =>
        refine ⟨⟨(phase1_d1 w).log ++ (phase1_d2 w).log, [Ev.phase1Join], rfl, hmem,
          Or.inr rfl⟩, fun _ => ⟨by simp, ?_⟩⟩
        intro c hc
        rcases List.mem_append.mp hc with h | h
        · exact hmem c h
        · simp at h
      | none =>
        refine ⟨⟨(phase1_d1 w).log ++ (phase1_d2 w).log,
          Ev.phase1Join :: (run_seq (build_job w.cfg) w.stepOk).events,
          by simp, hmem, Or.inr rfl⟩, fun hfail => absurd hfail ?_⟩
        rintro (h | h | h) <;> exact h rfl

/-- Witness for C7 at a concrete input: the first remote check cannot
connect, so the run aborts with an exception and no phase-2 step ran. -/
theorem phase1_join_precedes_phase2_witness :
    (main_run ⟨⟨fun _ _ => FtpReply.connError, 0⟩, ⟨fun _ => none⟩,
        ⟨"ref.fa", none, "37"⟩, fun _ => true, fun _ => true⟩).exc ≠ none
    ∧ Ev.phase2Step cmd_sort_raw ∉
        (main_run ⟨⟨fun _ _ => FtpReply.connError, 0⟩, ⟨fun _ => none⟩,
          ⟨"ref.fa", none, "37"⟩, fun _ => true, fun _ => true⟩).events := by
  have h := (phase1_join_precedes_phase2 ⟨⟨fun _ _ => FtpReply.connError, 0⟩,
    ⟨fun _ => none⟩, ⟨"ref.fa", none, "37"⟩, fun _ => true, fun _ => true⟩).2
    (Or.inl (by decide))
  exact ⟨h.1, h.2 cmd_sort_raw⟩

end Clinvar
